import Mathlib

/-
Verification of the user-status reconciliation program
(src/user-status-processor.py).

The program is embedded shallowly: a pandas DataFrame becomes a `DataFrame`
structure holding a column list and rows of (column, optional value) pairs,
where a `none` cell models a missing/NaN value.  Column access with pandas
KeyError semantics returns `Except`; the try/except blocks of the source
become the corresponding `Except` handlers.  All definitions follow the
source line by line; definitions whose doc comment says so follow the
wording of the specification instead, for comparison with the code.
-/

namespace UserStatus

/-- A cell of a table: `none` models a missing/NaN value. -/
abbrev Cell := Option String

/-- A row is an association list from column names to cells. -/
abbrev Row := List (String × Cell)

/-- First-match lookup of a column inside a row. -/
def rowGet : Row → String → Cell
  | [], _ => none
  | (k, v) :: rest, c => if k = c then v else rowGet rest c

/-- Reading row r at column c; a column absent from the row reads as NaN. -/
def getCell (r : Row) (c : String) : Cell := rowGet r c

/-- A pandas DataFrame: a column list together with the rows. -/
structure DataFrame where
  cols : List String
  rows : List Row
deriving DecidableEq, Repr

/-- The cells of column c, one per row (total version, used once the
presence of the column is known). -/
def colCells (df : DataFrame) (c : String) : List Cell :=
  df.rows.map (fun r => getCell r c)

/-- str.lower() character by character (as String.toLower does, but in a
form the kernel can evaluate). -/
def strLower (s : String) : String := ⟨s.data.map Char.toLower⟩

/-- str.upper() character by character. -/
def strUpper (s : String) : String := ⟨s.data.map Char.toUpper⟩

/-- Series.str.lower() on one cell: NaN stays NaN. -/
def lowerCell (c : Cell) : Cell := c.map strLower

/-- Series.str.upper() on one cell: NaN stays NaN. -/
def upperCell (c : Cell) : Cell := c.map strUpper

/-- Series.duplicated().any() — true when some cell occurs twice
(pandas counts two NaN cells as duplicates, as does `Option` equality). -/
def hasDup : List Cell → Bool
  | [] => false
  | c :: cs => cs.contains c || hasDup cs

/-- Rendering of a python set of cells inside an f-string message. -/
def formatCells (l : List Cell) : String :=
  String.intercalate ", " (l.map (fun c => c.getD "nan"))

/-- The 11 output columns (line 137 of the source). -/
def output_columns : List String :=
  ["first_name", "last_name", "email", "country", "department",
   "branch", "phone", "manager", "job_title", "group", "active"]

/-- required_columns of validation rule 4 (line 76): the same 11 names. -/
def required_columns : List String := output_columns

/-- critical_fields of validation rule 6 (line 86). -/
def critical_fields : List String := ["email", "first_name", "last_name", "active"]

/-- Row-level Termination Set builder (lines 120-124):
terminations_df[terminations_df[Employment Status] == Terminated]
[Work Email].str.lower().dropna(); `filterMap` performs the dropna. -/
def termSetList (rows : List Row) : List String :=
  (rows.filter (fun r => getCell r "Employment Status" == some "Terminated")).filterMap
    (fun r => lowerCell (getCell r "Work Email"))

/-- The Termination Set: set(...) of the previous list; dedup models set(). -/
def terminatedEmailsOf (df : DataFrame) : List String :=
  (termSetList df.rows).dedup

/-- Lines 127-128: the two shadow columns email_lower and active_upper,
prepended so that a later lookup sees the assigned value (pandas column
assignment overwrites). -/
def addShadowRow (r : Row) : Row :=
  ("email_lower", lowerCell (getCell r "email")) ::
    ("active_upper", upperCell (getCell r "active")) :: r

/-- Adding a column name to a column list when absent. -/
def addColName (cols : List String) (c : String) : List String :=
  if c ∈ cols then cols else cols ++ [c]

/-- The roster DataFrame after the two shadow-column assignments. -/
def addShadowDF (df : DataFrame) : DataFrame :=
  { cols := addColName (addColName df.cols "email_lower") "active_upper",
    rows := df.rows.map addShadowRow }

/-- new_inactive[output_columns] followed by output_df[active] = FALSE
(lines 141-142), for a single row. -/
def projectRow (r : Row) : Row :=
  output_columns.map (fun c => (c, if c = "active" then some "FALSE" else getCell r c))

/-- The row filter of lines 131-134: active_upper != FALSE and
email_lower.isin(terminated); isin is false on a NaN cell. -/
def newInactivePred (ts : List String) (r : Row) : Bool :=
  (!(getCell r "active_upper" == some "FALSE")) &&
    (match getCell r "email_lower" with
     | some e => ts.contains e
     | none => false)

/-- The candidate output DataFrame built by lines 131-142 from the
shadowed roster rows. -/
def reconcileCandidate (rows : List Row) (ts : List String) : DataFrame :=
  { cols := output_columns,
    rows := (rows.filter (newInactivePred ts)).map projectRow }

/-- set(output_df[email].str.lower()) of validation rule 2 (line 66). -/
def outputEmailsOf (o : DataFrame) : List Cell :=
  ((colCells o "email").map lowerCell).dedup

/-- set(ninjo_df[ninjo_df[active].str.upper() == FALSE][email].str.lower())
of validation rule 2 (line 67). -/
def ninjoInactiveOf (n : DataFrame) : List Cell :=
  ((n.rows.filter (fun r => upperCell (getCell r "active") == some "FALSE")).map
    (fun r => lowerCell (getCell r "email"))).dedup

/-- output_emails.intersection(ninjo_inactive) of rule 2 (line 68). -/
def overlapOf (n o : DataFrame) : List Cell :=
  (outputEmailsOf o).filter (fun c => (ninjoInactiveOf n).contains c)

/-- output_emails.difference(terminated_emails) of rule 3 (line 72);
a NaN output email is never a member of the terminated string set. -/
def notTerminatedOf (o : DataFrame) (ts : List String) : List Cell :=
  (outputEmailsOf o).filter (fun c =>
    match c with
    | some e => !ts.contains e
    | none => true)

/-- set(required_columns) - set(output_df.columns) of rule 4 (line 78). -/
def missingColsOf (o : DataFrame) : List String :=
  required_columns.filter (fun c => !o.cols.contains c)

/-- The first critical field holding a null, rule 6 loop (lines 87-89). -/
def firstNullCritical (o : DataFrame) : Option String :=
  critical_fields.find? (fun f => (colCells o f).any (fun c => c.isNone))

/-- Message of rule 1 (line 63). -/
def msgDup : String := "El output contiene emails duplicados"

/-- Message of rule 2 (line 69), carrying the offending email set. -/
def msgInactive (n o : DataFrame) : String :=
  "El output contiene usuarios que ya estaban inactivos: " ++ formatCells (overlapOf n o)

/-- Message of rule 3 (line 73), carrying the offending email set. -/
def msgNotTerm (o : DataFrame) (ts : List String) : String :=
  "El output contiene usuarios que no están en la lista de terminados: " ++
    formatCells (notTerminatedOf o ts)

/-- Message of rule 4 (line 79), carrying the missing column set. -/
def msgMissing (o : DataFrame) : String :=
  "Faltan columnas requeridas en el output: " ++ String.intercalate ", " (missingColsOf o)

/-- Message of rule 5 (line 83). -/
def msgActive : String := "Algunos registros no tienen \x27FALSE\x27 en el campo active"

/-- Message of rule 6 (line 89), naming the first critical field with nulls. -/
def msgNullCrit (o : DataFrame) : String :=
  "Hay valores nulos en el campo crítico: " ++ (firstNullCritical o).getD ""

/-- Message returned when the six rules pass (line 91). -/
def msgSuccess : String := "Validación exitosa"

/-- Rules 2 to 6 of validate_data (lines 65-91).  Once rule 4 has passed,
every column that rules 5 and 6 touch is present, so no further KeyError
can arise beyond the three accesses checked in validate_core. -/
def validate_after (ninjo_df output_df : DataFrame) (terminated_emails : List String) :
    Bool × String :=
  if overlapOf ninjo_df output_df ≠ [] then
    (false, msgInactive ninjo_df output_df)
  else if notTerminatedOf output_df terminated_emails ≠ [] then
    (false, msgNotTerm output_df terminated_emails)
  else if missingColsOf output_df ≠ [] then
    (false, msgMissing output_df)
  else if !((colCells output_df "active").all (fun c => c == some "FALSE")) then
    (false, msgActive)
  else
    match firstNullCritical output_df with
    | some f => (false, "Hay valores nulos en el campo crítico: " ++ f)
    | none => (true, msgSuccess)

/-- The body of the try block of validate_data (lines 60-91), with the
column accesses that can raise KeyError made explicit, in the order the
source performs them. -/
def validate_core (ninjo_df output_df : DataFrame) (terminated_emails : List String) :
    Except String (Bool × String) :=
  if "email" ∈ output_df.cols then
    if hasDup (colCells output_df "email") then
      .ok (false, msgDup)
    else if "active" ∈ ninjo_df.cols then
      if "email" ∈ ninjo_df.cols then
        .ok (validate_after ninjo_df output_df terminated_emails)
      else .error "KeyError: email"
    else .error "KeyError: active"
  else .error "KeyError: email"

/-- validate_data (lines 45-94): the try/except wrapper turning any
internal exception into a generic validation-error result. -/
def validate_data (ninjo_df output_df : DataFrame) (terminated_emails : List String) :
    Bool × String :=
  match validate_core ninjo_df output_df terminated_emails with
  | .ok r => r
  | .error e => (false, "Error durante la validación: " ++ e)

/-- The exception-free behaviour of validate_data: the six-rule chain. -/
def validate_pure (ninjo_df output_df : DataFrame) (terminated_emails : List String) :
    Bool × String :=
  if hasDup (colCells output_df "email") then (false, msgDup)
  else validate_after ninjo_df output_df terminated_emails

/-- The condition under which lines 119-141 of process_files raise no
KeyError; when it fails the outer except of process_files (line 172)
catches and the run returns failure with no file written. -/
def process_guard (ninjo_df terminations_df : DataFrame) : Prop :=
  "Employment Status" ∈ terminations_df.cols ∧ "Work Email" ∈ terminations_df.cols ∧
    "email" ∈ ninjo_df.cols ∧ "active" ∈ ninjo_df.cols ∧
    ∀ c ∈ output_columns, c ∈ (addShadowDF ninjo_df).cols

instance (n t : DataFrame) : Decidable (process_guard n t) := by
  unfold process_guard; infer_instance

/-- process_files after both reads succeeded (lines 119-174).  The second
component of the result is the written file: `some` exactly when
output_df.to_csv ran. -/
def process_core (ninjo_df terminations_df : DataFrame) : Bool × Option DataFrame :=
  if process_guard ninjo_df terminations_df then
    if (validate_data (addShadowDF ninjo_df)
          (reconcileCandidate (addShadowDF ninjo_df).rows (terminatedEmailsOf terminations_df))
          (terminatedEmailsOf terminations_df)).1 then
      (true, some (reconcileCandidate (addShadowDF ninjo_df).rows
        (terminatedEmailsOf terminations_df)))
    else (false, none)
  else (false, none)

/-- process_files (lines 96-174): `none` inputs model a failed read
(read_csv_file returned None), handled by lines 116-117. -/
def process_files : Option DataFrame → Option DataFrame → Bool × Option DataFrame
  | some n, some t => process_core n t
  | _, _ => (false, none)

/-- Validation rule 1 as the specification words it: the output email
column contains no repeated value. -/
def R1 (o : DataFrame) : Prop := (colCells o "email").Nodup

/-- Validation rule 2 as the specification words it: no lowercased output
email coincides with a lowercased email of an already-inactive roster row. -/
def R2 (n o : DataFrame) : Prop := ∀ c ∈ outputEmailsOf o, c ∉ ninjoInactiveOf n

/-- Validation rule 3 as the specification words it: every lowercased
output email belongs to the Termination Set. -/
def R3 (o : DataFrame) (ts : List String) : Prop :=
  ∀ c ∈ outputEmailsOf o, ∃ e ∈ ts, c = some e

/-- Validation rule 4 as the specification words it: the 11 required
column names are all present in the output. -/
def R4 (o : DataFrame) : Prop := ∀ c ∈ required_columns, c ∈ o.cols

/-- Validation rule 5 as the specification words it: every active cell is
the exact literal FALSE. -/
def R5 (o : DataFrame) : Prop := ∀ c ∈ colCells o "active", c = some "FALSE"

/-- Validation rule 6 as the specification words it: no critical field
holds a null. -/
def R6 (o : DataFrame) : Prop := ∀ f ∈ critical_fields, ∀ c ∈ colCells o f, c ≠ none

instance (o : DataFrame) : Decidable (R1 o) := by unfold R1; infer_instance

instance (n o : DataFrame) : Decidable (R2 n o) := by unfold R2; infer_instance

instance (o : DataFrame) (ts : List String) : Decidable (R3 o ts) := by
  unfold R3; infer_instance

instance (o : DataFrame) : Decidable (R4 o) := by unfold R4; infer_instance

instance (o : DataFrame) : Decidable (R5 o) := by unfold R5; infer_instance

instance (o : DataFrame) : Decidable (R6 o) := by unfold R6; infer_instance

/-- The candidate output as the specification words it: keep the roster
rows whose uppercased active value is not the literal FALSE and whose
lowercased email is a member of the Termination Set, in their original
order, projected on the 11 output fields with active forced to FALSE. -/
def specCandidate (ninjo : DataFrame) (ts : List String) : DataFrame :=
  { cols := output_columns,
    rows := (ninjo.rows.filter (fun r =>
        (!(upperCell (getCell r "active") == some "FALSE")) &&
          (match lowerCell (getCell r "email") with
           | some e => ts.contains e
           | none => false))).map projectRow }

/-- trim of the spec (section 4.1), character based. -/
def strTrim (s : String) : String :=
  ⟨((s.data.dropWhile Char.isWhitespace).reverse.dropWhile Char.isWhitespace).reverse⟩

/-- The four identity/status fields the spec says are normalized. -/
def target_fields : List String :=
  ["email", "Work Email", "active", "Employment Status"]

/-- Modelled from the spec (section 4.1 Record Normalizer), not from the
code: replace each targeted cell by its trimmed string form, a
missing/null value becoming the empty string.  The code has no such step;
this definition exists to compare the spec wording with the code. -/
def specNormalizeRow (r : Row) : Row :=
  r.map (fun p => if p.1 ∈ target_fields then (p.1, some (strTrim (p.2.getD ""))) else p)

/-- Modelled from the spec (section 4.1): the normalization applied to a
whole table. -/
def specNormalizeDF (df : DataFrame) : DataFrame :=
  ⟨df.cols, df.rows.map specNormalizeRow⟩

/-- Concrete data: a roster row for Alice, active TRUE. -/
def wRosterRow : Row :=
  [("first_name", some "Alice"), ("last_name", some "Smith"), ("email", some "Alice@X.com"),
   ("country", some "US"), ("department", some "Eng"), ("branch", some "HQ"),
   ("phone", some "1"), ("manager", some "M"), ("job_title", some "Dev"),
   ("group", some "G"), ("active", some "TRUE")]

def wRoster : DataFrame := ⟨output_columns, [wRosterRow]⟩

def wTerms : DataFrame :=
  ⟨["Employment Status", "Work Email"],
   [[("Employment Status", some "Terminated"), ("Work Email", some "ALICE@X.COM")]]⟩

def wOutRow : Row :=
  [("first_name", some "Alice"), ("last_name", some "Smith"), ("email", some "Alice@X.com"),
   ("country", some "US"), ("department", some "Eng"), ("branch", some "HQ"),
   ("phone", some "1"), ("manager", some "M"), ("job_title", some "Dev"),
   ("group", some "G"), ("active", some "FALSE")]

def wOut : DataFrame := ⟨output_columns, [wOutRow]⟩

/-- Concrete data: a roster row for Bob whose active flag is false. -/
def bobRow : Row :=
  [("first_name", some "Bob"), ("last_name", some "Low"), ("email", some "bob@x.com"),
   ("country", some "US"), ("department", some "Eng"), ("branch", some "HQ"),
   ("phone", some "2"), ("manager", some "M"), ("job_title", some "Dev"),
   ("group", some "G"), ("active", some "false")]

def vNinjo : DataFrame := ⟨output_columns, [bobRow]⟩

def vOutRow : Row :=
  [("first_name", some "Bob"), ("last_name", some "Low"), ("email", some "bob@x.com"),
   ("country", some "US"), ("department", some "Eng"), ("branch", some "HQ"),
   ("phone", some "2"), ("manager", some "M"), ("job_title", some "Dev"),
   ("group", some "G"), ("active", some "FALSE")]

def vOut : DataFrame := ⟨output_columns, [vOutRow]⟩

/-- Concrete data for the run behind the C8 witness: Alice is active and
terminated, Dave is already inactive, Eve only resigned. -/
def daveRow : Row :=
  [("first_name", some "Dave"), ("last_name", some "Old"), ("email", some "dave@x.com"),
   ("country", some "US"), ("department", some "Eng"), ("branch", some "HQ"),
   ("phone", some "3"), ("manager", some "M"), ("job_title", some "Dev"),
   ("group", some "G"), ("active", some "false")]

def w8Roster : DataFrame := ⟨output_columns, [wRosterRow, daveRow]⟩

def w8Terms : DataFrame :=
  ⟨["Employment Status", "Work Email"],
   [[("Employment Status", some "Terminated"), ("Work Email", some "ALICE@X.COM")],
    [("Employment Status", some "Resigned"), ("Work Email", some "eve@x.com")]]⟩

def w8Out : DataFrame := ⟨output_columns, [wOutRow]⟩

/-- Concrete data for the C8 counterexample: the termination feed lists
Carol once as Resigned and once as Terminated. -/
def carolRow : Row :=
  [("first_name", some "Carol"), ("last_name", some "Two"), ("email", some "carol@x.com"),
   ("country", some "US"), ("department", some "Eng"), ("branch", some "HQ"),
   ("phone", some "4"), ("manager", some "M"), ("job_title", some "Dev"),
   ("group", some "G"), ("active", some "TRUE")]

def cxRoster : DataFrame := ⟨output_columns, [carolRow]⟩

def cxResignedRow : Row :=
  [("Employment Status", some "Resigned"), ("Work Email", some "carol@x.com")]

def cxTerms : DataFrame :=
  ⟨["Employment Status", "Work Email"],
   [cxResignedRow,
    [("Employment Status", some "Terminated"), ("Work Email", some "carol@x.com")]]⟩

def cxOutRow : Row :=
  [("first_name", some "Carol"), ("last_name", some "Two"), ("email", some "carol@x.com"),
   ("country", some "US"), ("department", some "Eng"), ("branch", some "HQ"),
   ("phone", some "4"), ("manager", some "M"), ("job_title", some "Dev"),
   ("group", some "G"), ("active", some "FALSE")]

def cxOut : DataFrame := ⟨output_columns, [cxOutRow]⟩

/-- Concrete data for the C4 counterexample: the roster email carries a
leading space, the termination feed holds the trimmed form. -/
def c4RosterRow : Row :=
  [("first_name", some "Alice"), ("last_name", some "Smith"), ("email", some " alice@x.com"),
   ("country", some "US"), ("department", some "Eng"), ("branch", some "HQ"),
   ("phone", some "1"), ("manager", some "M"), ("job_title", some "Dev"),
   ("group", some "G"), ("active", some "TRUE")]

def c4Roster : DataFrame := ⟨output_columns, [c4RosterRow]⟩

def c4Terms : DataFrame :=
  ⟨["Employment Status", "Work Email"],
   [[("Employment Status", some "Terminated"), ("Work Email", some "alice@x.com")]]⟩

def c4EmptyOut : DataFrame := ⟨output_columns, []⟩

def c4NormOutRow : Row :=
  [("first_name", some "Alice"), ("last_name", some "Smith"), ("email", some "alice@x.com"),
   ("country", some "US"), ("department", some "Eng"), ("branch", some "HQ"),
   ("phone", some "1"), ("manager", some "M"), ("job_title", some "Dev"),
   ("group", some "G"), ("active", some "FALSE")]

def c4NormOut : DataFrame := ⟨output_columns, [c4NormOutRow]⟩

/-- A DataFrame with no columns at all (for the missing-column witness). -/
def emptyDF : DataFrame := ⟨[], []⟩

/-- Concrete data for the C10 witness: a Terminated row whose work email
is null, next to a normal Terminated row for Frank. -/
def t10NullRow : Row := [("Employment Status", some "Terminated"), ("Work Email", none)]

def t10FrankRow : Row :=
  [("Employment Status", some "Terminated"), ("Work Email", some "frank@x.com")]

theorem getCell_addShadow_other (r : Row) (c : String)
    (h1 : c ≠ "email_lower") (h2 : c ≠ "active_upper") :
    getCell (addShadowRow r) c = getCell r c := by
  simp only [getCell, addShadowRow, rowGet]
  rw [if_neg fun h => h1 h.symm, if_neg fun h => h2 h.symm]

theorem projectRow_addShadow (r : Row) : projectRow (addShadowRow r) = projectRow r := rfl

theorem hasDup_eq_false_iff : ∀ l : List Cell, hasDup l = false ↔ l.Nodup
  | [] => by simp [hasDup]
  | c :: cs => by
    simp [hasDup, List.nodup_cons, hasDup_eq_false_iff cs]

theorem hasDup_eq_true_iff (l : List Cell) : hasDup l = true ↔ ¬ l.Nodup := by
  rw [← hasDup_eq_false_iff l]
  cases hasDup l <;> simp

theorem overlap_nil_iff (n o : DataFrame) : overlapOf n o = [] ↔ R2 n o := by
  unfold overlapOf R2
  rw [List.filter_eq_nil_iff]
  simp

theorem notTermCell_iff (ts : List String) (c : Cell) :
    (¬ ((match c with | some e => !ts.contains e | none => true) = true)) ↔
      ∃ e ∈ ts, c = some e := by
  cases c <;> simp

theorem notTerm_nil_iff (o : DataFrame) (ts : List String) :
    notTerminatedOf o ts = [] ↔ R3 o ts := by
  unfold notTerminatedOf R3
  rw [List.filter_eq_nil_iff]
  exact forall₂_congr fun c _ => notTermCell_iff ts c

theorem missing_nil_iff (o : DataFrame) : missingColsOf o = [] ↔ R4 o := by
  unfold missingColsOf R4
  rw [List.filter_eq_nil_iff]
  simp

theorem allFalse_iff (o : DataFrame) :
    ((colCells o "active").all (fun c => c == some "FALSE")) = true ↔ R5 o := by
  unfold R5
  rw [List.all_eq_true]
  simp

theorem firstNull_none_iff (o : DataFrame) : firstNullCritical o = none ↔ R6 o := by
  unfold firstNullCritical R6
  rw [List.find?_eq_none]
  simp only [List.any_eq_true, Option.isNone_iff_eq_none, not_exists, not_and]

/-- C1: for every roster table and Termination Set, the candidate output
of the reconciliation step contains exactly the roster rows whose
uppercased active value is not the literal FALSE and whose lowercased
email is a member of the Termination Set, projected onto the 11 output
fields with active forced to the literal FALSE, in the original roster
row order (both sides are stable filters of the same row list). -/
theorem reconciliation_matches_spec (ninjo : DataFrame) (ts : List String) :
    reconcileCandidate (addShadowDF ninjo).rows ts = specCandidate ninjo ts := by
  unfold reconcileCandidate specCandidate addShadowDF
  congr 1
  rw [List.filter_map, List.map_map]
  have hproj : projectRow ∘ addShadowRow = projectRow := funext fun r => projectRow_addShadow r
  have hpred : newInactivePred ts ∘ addShadowRow =
      (fun r => (!(upperCell (getCell r "active") == some "FALSE")) &&
        (match lowerCell (getCell r "email") with
         | some e => ts.contains e
         | none => false)) := funext fun r => rfl
  rw [hproj, hpred]

/-- C3: the Termination Set is exactly the set of lowercased work emails
of the rows whose employment status equals the literal Terminated under
case-sensitive comparison; other rows contribute nothing and duplicates
collapse into one element (the set is duplicate-free and membership is
characterized row-wise). -/
theorem termination_set_spec (t : DataFrame) (e : String) :
    (e ∈ terminatedEmailsOf t ↔
      ∃ r ∈ t.rows, getCell r "Employment Status" = some "Terminated"
        ∧ ∃ w, getCell r "Work Email" = some w ∧ e = strLower w)
    ∧ (terminatedEmailsOf t).Nodup := by
  constructor
  · unfold terminatedEmailsOf termSetList
    rw [List.mem_dedup, List.mem_filterMap]
    constructor
    · rintro ⟨r, hr, hf⟩
      rw [List.mem_filter] at hr
      simp only [lowerCell] at hf
      obtain ⟨w, hw, hlw⟩ := Option.map_eq_some'.mp hf
      exact ⟨r, hr.1, by simpa using hr.2, w, hw, hlw.symm⟩
    · rintro ⟨r, hr, hst, w, hw, rfl⟩
      refine ⟨r, List.mem_filter.mpr ⟨hr, by simp [hst]⟩, ?_⟩
      simp [lowerCell, hw]
  · exact List.nodup_dedup _

/-- C10: a termination row whose employment status is Terminated but whose
work email is null contributes nothing to the Termination Set (the null is
dropped, not stringified); the builder is total and its elements are
strings, so no null element can exist. -/
theorem terminated_null_work_email_dropped (pre post : List Row) (r : Row)
    (hs : getCell r "Employment Status" = some "Terminated")
    (hw : getCell r "Work Email" = none) :
    termSetList (pre ++ r :: post) = termSetList (pre ++ post)
    ∧ terminatedEmailsOf ⟨["Employment Status", "Work Email"], pre ++ r :: post⟩
        = terminatedEmailsOf ⟨["Employment Status", "Work Email"], pre ++ post⟩ := by
  have key : termSetList (pre ++ r :: post) = termSetList (pre ++ post) := by
    unfold termSetList
    rw [List.filter_append, List.filter_append,
      List.filter_cons_of_pos (by simp [hs]),
      List.filterMap_append, List.filterMap_append,
      List.filterMap_cons_none (by simp [lowerCell, hw])]
  refine ⟨key, ?_⟩
  show (termSetList (pre ++ r :: post)).dedup = (termSetList (pre ++ post)).dedup
  rw [key]

/-- Witness for C10 at a concrete feed: the Terminated row with a null
work email is dropped and only Frank remains. -/
theorem terminated_null_work_email_dropped_witness :
    termSetList ([] ++ t10NullRow :: [t10FrankRow]) = termSetList ([] ++ [t10FrankRow])
    ∧ terminatedEmailsOf ⟨["Employment Status", "Work Email"], [] ++ t10NullRow :: [t10FrankRow]⟩
        = terminatedEmailsOf ⟨["Employment Status", "Work Email"], [] ++ [t10FrankRow]⟩ :=
  terminated_null_work_email_dropped [] [t10FrankRow] t10NullRow rfl rfl

theorem validate_data_of_cols (n o : DataFrame) (ts : List String)
    (h1 : "email" ∈ o.cols) (h2 : "active" ∈ n.cols) (h3 : "email" ∈ n.cols) :
    validate_data n o ts = validate_pure n o ts := by
  cases hd : hasDup (colCells o "email") <;>
    simp [validate_data, validate_core, validate_pure, h1, h2, h3, hd]

theorem validate_pure_cases (n o : DataFrame) (ts : List String) :
    ((R1 o ∧ R2 n o ∧ R3 o ts ∧ R4 o ∧ R5 o ∧ R6 o) →
        validate_pure n o ts = (true, msgSuccess))
    ∧ ((validate_pure n o ts).1 = true → R1 o ∧ R2 n o ∧ R3 o ts ∧ R4 o ∧ R5 o ∧ R6 o)
    ∧ (¬ R1 o → validate_pure n o ts = (false, msgDup))
    ∧ (R1 o → ¬ R2 n o → validate_pure n o ts = (false, msgInactive n o))
    ∧ (R1 o → R2 n o → ¬ R3 o ts → validate_pure n o ts = (false, msgNotTerm o ts))
    ∧ (R1 o → R2 n o → R3 o ts → ¬ R4 o → validate_pure n o ts = (false, msgMissing o))
    ∧ (R1 o → R2 n o → R3 o ts → R4 o → ¬ R5 o → validate_pure n o ts = (false, msgActive))
    ∧ (R1 o → R2 n o → R3 o ts → R4 o → R5 o → ¬ R6 o →
        validate_pure n o ts = (false, msgNullCrit o)) := by
  by_cases hb1 : hasDup (colCells o "email") = true
  · have hnR1 : ¬ R1 o := (hasDup_eq_true_iff _).mp hb1
    have hv : validate_pure n o ts = (false, msgDup) := by
      unfold validate_pure
      rw [if_pos hb1]
    rw [hv]
    exact ⟨fun h => absurd h.1 hnR1, fun h => by simp at h, fun _ => rfl,
      fun h _ => absurd h hnR1, fun h _ _ => absurd h hnR1,
      fun h _ _ _ => absurd h hnR1, fun h _ _ _ _ => absurd h hnR1,
      fun h _ _ _ _ _ => absurd h hnR1⟩
  · have hb1f : hasDup (colCells o "email") = false := by
      revert hb1
      cases hasDup (colCells o "email") <;> simp
    have hR1 : R1 o := (hasDup_eq_false_iff _).mp hb1f
    by_cases hb2 : overlapOf n o = []
    · have hR2 : R2 n o := (overlap_nil_iff n o).mp hb2
      by_cases hb3 : notTerminatedOf o ts = []
      · have hR3 : R3 o ts := (notTerm_nil_iff o ts).mp hb3
        by_cases hb4 : missingColsOf o = []
        · have hR4 : R4 o := (missing_nil_iff o).mp hb4
          by_cases hb5 : ((colCells o "active").all (fun c => c == some "FALSE")) = true
          · have hR5 : R5 o := (allFalse_iff o).mp hb5
            by_cases hb6 : firstNullCritical o = none
            · have hR6 : R6 o := (firstNull_none_iff o).mp hb6
              have hv : validate_pure n o ts = (true, msgSuccess) := by
                unfold validate_pure validate_after
                rw [if_neg (by simp [hb1f]), if_neg (by simp [hb2]),
                  if_neg (by simp [hb3]), if_neg (by simp [hb4]),
                  if_neg (by simp [hb5]), hb6]
              rw [hv]
              exact ⟨fun _ => rfl, fun _ => ⟨hR1, hR2, hR3, hR4, hR5, hR6⟩,
                fun h => absurd hR1 h, fun _ h => absurd hR2 h,
                fun _ _ h => absurd hR3 h, fun _ _ _ h => absurd hR4 h,
                fun _ _ _ _ h => absurd hR5 h, fun _ _ _ _ _ h => absurd hR6 h⟩
            · have hnR6 : ¬ R6 o := fun h => hb6 ((firstNull_none_iff o).mpr h)
              obtain ⟨f, hf⟩ := Option.ne_none_iff_exists'.mp hb6
              have hv : validate_pure n o ts = (false, msgNullCrit o) := by
                unfold validate_pure validate_after
                rw [if_neg (by simp [hb1f]), if_neg (by simp [hb2]),
                  if_neg (by simp [hb3]), if_neg (by simp [hb4]),
                  if_neg (by simp [hb5]), hf]
                simp [msgNullCrit, hf]
              rw [hv]
              exact ⟨fun h => absurd h.2.2.2.2.2 hnR6, fun h => by simp at h,
                fun h => absurd hR1 h, fun _ h => absurd hR2 h,
                fun _ _ h => absurd hR3 h, fun _ _ _ h => absurd hR4 h,
                fun _ _ _ _ h => absurd hR5 h, fun _ _ _ _ _ _ => rfl⟩
          · have hb5f : ((colCells o "active").all (fun c => c == some "FALSE")) = false := by
              revert hb5
              cases ((colCells o "active").all (fun c => c == some "FALSE")) <;> simp
            have hnR5 : ¬ R5 o := fun h => hb5 ((allFalse_iff o).mpr h)
            have hv : validate_pure n o ts = (false, msgActive) := by
              unfold validate_pure validate_after
              rw [if_neg (by simp [hb1f]), if_neg (by simp [hb2]),
                if_neg (by simp [hb3]), if_neg (by simp [hb4]),
                if_pos (by simp [hb5f])]
            rw [hv]
            exact ⟨fun h => absurd h.2.2.2.2.1 hnR5, fun h => by simp at h,
              fun h => absurd hR1 h, fun _ h => absurd hR2 h,
              fun _ _ h => absurd hR3 h, fun _ _ _ h => absurd hR4 h,
              fun _ _ _ _ _ => rfl, fun _ _ _ _ h _ => absurd h hnR5⟩
        · have hnR4 : ¬ R4 o := fun h => hb4 ((missing_nil_iff o).mpr h)
          have hv : validate_pure n o ts = (false, msgMissing o) := by
            unfold validate_pure validate_after
            rw [if_neg (by simp [hb1f]), if_neg (by simp [hb2]),
              if_neg (by simp [hb3]), if_pos hb4]
          rw [hv]
          exact ⟨fun h => absurd h.2.2.2.1 hnR4, fun h => by simp at h,
            fun h => absurd hR1 h, fun _ h => absurd hR2 h,
            fun _ _ h => absurd hR3 h, fun _ _ _ _ => rfl,
            fun _ _ _ h _ => absurd h hnR4, fun _ _ _ h _ _ => absurd h hnR4⟩
      · have hnR3 : ¬ R3 o ts := fun h => hb3 ((notTerm_nil_iff o ts).mpr h)
        have hv : validate_pure n o ts = (false, msgNotTerm o ts) := by
          unfold validate_pure validate_after
          rw [if_neg (by simp [hb1f]), if_neg (by simp [hb2]), if_pos hb3]
        rw [hv]
        exact ⟨fun h => absurd h.2.2.1 hnR3, fun h => by simp at h,
          fun h => absurd hR1 h, fun _ h => absurd hR2 h, fun _ _ _ => rfl,
          fun _ _ h _ => absurd h hnR3, fun _ _ h _ _ => absurd h hnR3,
          fun _ _ h _ _ _ => absurd h hnR3⟩
    · have hnR2 : ¬ R2 n o := fun h => hb2 ((overlap_nil_iff n o).mpr h)
      have hv : validate_pure n o ts = (false, msgInactive n o) := by
        unfold validate_pure validate_after
        rw [if_neg (by simp [hb1f]), if_pos hb2]
      rw [hv]
      exact ⟨fun h => absurd h.2.1 hnR2, fun h => by simp at h,
        fun h => absurd hR1 h, fun _ _ => rfl,
        fun _ h _ => absurd h hnR2, fun _ h _ _ => absurd h hnR2,
        fun _ h _ _ _ => absurd h hnR2, fun _ h _ _ _ _ => absurd h hnR2⟩

/-- C2: under the column accesses succeeding, the Validator realizes the
six rules in fixed order with short-circuit semantics: all six passing
yields the success pair, the truth of the result implies all six rules,
and the first failing rule alone determines the failure message (each
failure equation depends only on the rules before it, so later rules are
never consulted). -/
theorem validator_first_failure (n o : DataFrame) (ts : List String)
    (h1 : "email" ∈ o.cols) (h2 : "active" ∈ n.cols) (h3 : "email" ∈ n.cols) :
    ((R1 o ∧ R2 n o ∧ R3 o ts ∧ R4 o ∧ R5 o ∧ R6 o) →
        validate_data n o ts = (true, msgSuccess))
    ∧ ((validate_data n o ts).1 = true → R1 o ∧ R2 n o ∧ R3 o ts ∧ R4 o ∧ R5 o ∧ R6 o)
    ∧ (¬ R1 o → validate_data n o ts = (false, msgDup))
    ∧ (R1 o → ¬ R2 n o → validate_data n o ts = (false, msgInactive n o))
    ∧ (R1 o → R2 n o → ¬ R3 o ts → validate_data n o ts = (false, msgNotTerm o ts))
    ∧ (R1 o → R2 n o → R3 o ts → ¬ R4 o → validate_data n o ts = (false, msgMissing o))
    ∧ (R1 o → R2 n o → R3 o ts → R4 o → ¬ R5 o → validate_data n o ts = (false, msgActive))
    ∧ (R1 o → R2 n o → R3 o ts → R4 o → R5 o → ¬ R6 o →
        validate_data n o ts = (false, msgNullCrit o)) := by
  rw [validate_data_of_cols n o ts h1 h2 h3]
  exact validate_pure_cases n o ts

/-- Witness for C2: a concrete output holding an already-inactive user
passes rule 1, fails rule 2 and receives exactly the rule-2 message. -/
theorem validator_first_failure_witness :
    validate_data vNinjo vOut ["bob@x.com"] = (false, msgInactive vNinjo vOut) :=
  (validator_first_failure vNinjo vOut ["bob@x.com"]
    (by decide) (by decide) (by decide)).2.2.2.1 (by decide) (by decide)

/-- C7: when the rule evaluation raises internally (for example a lookup
error from a missing column), validate_data catches it and answers with
the generic validation-error message instead of propagating. -/
theorem validator_catches_internal_error (n o : DataFrame) (ts : List String) (e : String)
    (h : validate_core n o ts = .error e) :
    validate_data n o ts = (false, "Error durante la validación: " ++ e) := by
  unfold validate_data
  rw [h]

/-- Witness for C7: validating against a table with no columns raises a
lookup error on the email column, which is caught and reported. -/
theorem validator_catches_internal_error_witness :
    validate_data emptyDF emptyDF [] = (false, "Error durante la validación: " ++ "KeyError: email") :=
  validator_catches_internal_error emptyDF emptyDF [] "KeyError: email" rfl

theorem mem_addColName (cols : List String) (c d : String) (h : c ∈ cols) :
    c ∈ addColName cols d := by
  unfold addColName
  split
  · exact h
  · exact List.mem_append_left _ h

theorem process_core_success_inv (n t out : DataFrame)
    (h : process_core n t = (true, some out)) :
    process_guard n t
    ∧ out = reconcileCandidate (addShadowDF n).rows (terminatedEmailsOf t)
    ∧ (validate_data (addShadowDF n) out (terminatedEmailsOf t)).1 = true := by
  unfold process_core at h
  by_cases hg : process_guard n t
  · rw [if_pos hg] at h
    by_cases hv : (validate_data (addShadowDF n)
        (reconcileCandidate (addShadowDF n).rows (terminatedEmailsOf t))
        (terminatedEmailsOf t)).1 = true
    · rw [if_pos hv] at h
      have hout : out = reconcileCandidate (addShadowDF n).rows (terminatedEmailsOf t) := by
        have hsnd := congrArg Prod.snd h
        simpa using hsnd.symm
      exact ⟨hg, hout, by rw [hout]; exact hv⟩
    · rw [if_neg hv] at h
      simp at h
  · rw [if_neg hg] at h
    simp at h

theorem candidate_email_mem (n : DataFrame) (ts : List String) (c : Cell)
    (hc : c ∈ colCells (reconcileCandidate (addShadowDF n).rows ts) "email") :
    ∃ e, lowerCell c = some e ∧ e ∈ ts := by
  have hc' : c ∈ ((n.rows.map addShadowRow).filter (newInactivePred ts)).map
      (fun r => getCell (projectRow r) "email") := by
    simpa [colCells, reconcileCandidate, addShadowDF, List.map_map] using hc
  rw [List.mem_map] at hc'
  obtain ⟨r1, hr1, hcell⟩ := hc'
  rw [List.mem_filter] at hr1
  obtain ⟨hr1mem, hpred⟩ := hr1
  rw [List.mem_map] at hr1mem
  obtain ⟨r0, hr0, rfl⟩ := hr1mem
  have h2 : (match lowerCell (getCell r0 "email") with
      | some e => ts.contains e
      | none => false) = true := ((Bool.and_eq_true _ _).mp hpred).2
  subst hcell
  have hkey : getCell (projectRow (addShadowRow r0)) "email" = getCell r0 "email" := rfl
  rw [hkey]
  cases hl : getCell r0 "email" with
  | none =>
    rw [hl] at h2
    simp [lowerCell] at h2
  | some s =>
    rw [hl] at h2
    have h3 : ts.contains (strLower s) = true := h2
    refine ⟨strLower s, by simp [lowerCell], ?_⟩
    simpa using h3

/-- C5: the output file is written only after the Validator succeeds: when
the run returns failure nothing was written, and a written table can only
arise from both reads succeeding, the reconciliation completing and
validate_data answering true on exactly that table. -/
theorem write_only_after_validation (ninjo? terms? : Option DataFrame) :
    ((process_files ninjo? terms?).1 = false → (process_files ninjo? terms?).2 = none)
    ∧ (∀ out, (process_files ninjo? terms?).2 = some out →
        (process_files ninjo? terms?).1 = true
        ∧ ∃ n t, ninjo? = some n ∧ terms? = some t
            ∧ out = reconcileCandidate (addShadowDF n).rows (terminatedEmailsOf t)
            ∧ (validate_data (addShadowDF n) out (terminatedEmailsOf t)).1 = true) := by
  cases ninjo? with
  | none => exact ⟨fun _ => rfl, fun out h => by simp [process_files] at h⟩
  | some n =>
    cases terms? with
    | none => exact ⟨fun _ => rfl, fun out h => by simp [process_files] at h⟩
    | some t =>
      have heq : process_files (some n) (some t) = process_core n t := rfl
      rw [heq]
      constructor
      · intro hfst
        unfold process_core at hfst ⊢
        by_cases hg : process_guard n t
        · rw [if_pos hg] at hfst ⊢
          by_cases hv : (validate_data (addShadowDF n)
              (reconcileCandidate (addShadowDF n).rows (terminatedEmailsOf t))
              (terminatedEmailsOf t)).1 = true
          · rw [if_pos hv] at hfst
            simp at hfst
          · rw [if_neg hv]
        · rw [if_neg hg]
      · intro out hsnd
        unfold process_core at hsnd
        by_cases hg : process_guard n t
        · rw [if_pos hg] at hsnd
          by_cases hv : (validate_data (addShadowDF n)
              (reconcileCandidate (addShadowDF n).rows (terminatedEmailsOf t))
              (terminatedEmailsOf t)).1 = true
          · rw [if_pos hv] at hsnd
            have hout : out = reconcileCandidate (addShadowDF n).rows
                (terminatedEmailsOf t) := by
              simpa using hsnd.symm
            refine ⟨?_, n, t, rfl, rfl, hout, ?_⟩
            · unfold process_core
              rw [if_pos hg, if_pos hv]
            · rw [hout]
              exact hv
          · rw [if_neg hv] at hsnd
            simp at hsnd
        · rw [if_neg hg] at hsnd
          simp at hsnd

/-- Witness for C5: with both reads failed the run returns failure and no
file is written. -/
theorem write_only_after_validation_witness :
    (process_files none none).2 = none :=
  (write_only_after_validation none none).1 rfl

/-- C6: after every successful run the lowercased emails of the written
table all belong to the Termination Set built from the terminations
input. -/
theorem output_emails_subset_terminated (n t out : DataFrame)
    (h : process_files (some n) (some t) = (true, some out)) :
    ∀ c ∈ colCells out "email", ∀ e, lowerCell c = some e → e ∈ terminatedEmailsOf t := by
  obtain ⟨hg, hout, hval⟩ := process_core_success_inv n t out h
  subst hout
  intro c hc e he
  obtain ⟨e2, he2, hmem⟩ := candidate_email_mem n (terminatedEmailsOf t) c hc
  rw [he] at he2
  rwa [Option.some.inj he2]

/-- Witness for C6: in the Alice run the written email lowers to a member
of the Termination Set. -/
theorem output_emails_subset_terminated_witness :
    "alice@x.com" ∈ terminatedEmailsOf wTerms :=
  output_emails_subset_terminated wRoster wTerms wOut (by decide)
    (some "Alice@X.com") (by decide) "alice@x.com" (by decide)

/-- C9: the transformation from the two input tables to the result is a
pure function in this embedding (the source computes the written rows
deterministically; its python sets only answer membership queries and
never order the output), so running it twice on the same immutable inputs
gives identical results. -/
theorem rerun_reproduces_output (ninjo? terms? : Option DataFrame)
    (r1 r2 : Bool × Option DataFrame)
    (h1 : process_files ninjo? terms? = r1)
    (h2 : process_files ninjo? terms? = r2) :
    r1 = r2 := h1.symm.trans h2

/-- Witness for C9: two runs over the Alice inputs give the same pair. -/
theorem rerun_reproduces_output_witness :
    ((true, some wOut) : Bool × Option DataFrame) = (true, some wOut) :=
  rerun_reproduces_output (some wRoster) (some wTerms) (true, some wOut)
    (true, some wOut) (by decide) (by decide)

/-- C8 counterexample: the claim fails as stated.  Carol appears in the
termination feed once as Resigned and once as Terminated; the run succeeds
and the written table carries the email of the Resigned row, although that
row's employment status is not the literal Terminated. -/
theorem resigned_email_in_output_counterexample :
    cxResignedRow ∈ cxTerms.rows
    ∧ getCell cxResignedRow "Employment Status" = some "Resigned"
    ∧ getCell cxResignedRow "Work Email" = some "carol@x.com"
    ∧ process_files (some cxRoster) (some cxTerms) = (true, some cxOut)
    ∧ some "carol@x.com" ∈ colCells cxOut "email" :=
  ⟨by decide, rfl, rfl, by decide, by decide⟩

/-- C8 amended: after a successful run, no email of a roster row whose
active value uppercases to FALSE appears (lowercased) in the written
table; and no email of a termination row whose status is not the literal
Terminated appears, provided that email is not also reported as Terminated
by some other row (it lies outside the Termination Set). -/
theorem inactive_and_unlisted_never_in_output (n t out : DataFrame)
    (h : process_files (some n) (some t) = (true, some out)) :
    (∀ r ∈ n.rows, upperCell (getCell r "active") = some "FALSE" →
        ∀ c ∈ colCells out "email", lowerCell c ≠ lowerCell (getCell r "email"))
    ∧ (∀ r ∈ t.rows, getCell r "Employment Status" ≠ some "Terminated" →
        ∀ e, lowerCell (getCell r "Work Email") = some e →
          e ∉ terminatedEmailsOf t →
          ∀ c ∈ colCells out "email", lowerCell c ≠ some e) := by
  obtain ⟨hg, hout, hval⟩ := process_core_success_inv n t out h
  have hg' := hg
  unfold process_guard at hg'
  obtain ⟨-, -, hne, hna, -⟩ := hg'
  constructor
  · intro r hr hact c hc habs
    have hcols1 : "email" ∈ out.cols := by
      rw [hout]
      show "email" ∈ output_columns
      decide
    have hcols2 : "active" ∈ (addShadowDF n).cols :=
      mem_addColName _ _ _ (mem_addColName _ _ _ hna)
    have hcols3 : "email" ∈ (addShadowDF n).cols :=
      mem_addColName _ _ _ (mem_addColName _ _ _ hne)
    rw [validate_data_of_cols _ _ _ hcols1 hcols2 hcols3] at hval
    obtain ⟨-, hR2, -, -, -, -⟩ :=
      (validate_pure_cases (addShadowDF n) out (terminatedEmailsOf t)).2.1 hval
    have hin1 : lowerCell c ∈ outputEmailsOf out := by
      unfold outputEmailsOf
      rw [List.mem_dedup, List.mem_map]
      exact ⟨c, hc, rfl⟩
    have hin2 : lowerCell (getCell r "email") ∈ ninjoInactiveOf (addShadowDF n) := by
      unfold ninjoInactiveOf
      rw [List.mem_dedup, List.mem_map]
      refine ⟨addShadowRow r, ?_, rfl⟩
      rw [List.mem_filter]
      refine ⟨?_, ?_⟩
      · show addShadowRow r ∈ (addShadowDF n).rows
        exact List.mem_map.mpr ⟨r, hr, rfl⟩
      · show (upperCell (getCell (addShadowRow r) "active") == some "FALSE") = true
        have hsame : getCell (addShadowRow r) "active" = getCell r "active" := rfl
        rw [hsame, hact]
        rfl
    rw [← habs] at hin2
    exact hR2 _ hin1 hin2
  · intro r hr hst e he hnot c hc habs
    rw [hout] at hc
    obtain ⟨e2, he2, hmem⟩ := candidate_email_mem n (terminatedEmailsOf t) c hc
    rw [habs] at he2
    rw [Option.some.inj he2] at hnot
    exact hnot hmem

/-- Witness for C8 amended: in a successful run holding both an inactive
Dave row and a Resigned-only Eve row, the written Alice email differs from
the lowercased email of the inactive Dave row. -/
theorem inactive_and_unlisted_never_in_output_witness :
    lowerCell (some "Alice@X.com") ≠ lowerCell (getCell daveRow "email") :=
  (inactive_and_unlisted_never_in_output w8Roster w8Terms w8Out (by decide)).1
    daveRow (by decide) (by decide) (some "Alice@X.com") (by decide)

/-- C4 counterexample: the claim fails as stated.  No trimming or
null-to-empty normalization happens before the comparisons: on a roster
whose email carries a leading space the run writes an empty table, while
the same run on the spec-normalized inputs writes the Alice row, so the
pipeline does not factor through the normalization the spec describes. -/
theorem normalization_absent_counterexample :
    process_files (some c4Roster) (some c4Terms) = (true, some c4EmptyOut)
    ∧ process_files (some (specNormalizeDF c4Roster)) (some (specNormalizeDF c4Terms))
        = (true, some c4NormOut)
    ∧ c4EmptyOut ≠ c4NormOut :=
  ⟨by decide, by decide, by decide⟩

/-- C4 amended: the only pre-comparison normalization is the derivation of
the two roster shadow columns, email_lower and active_upper; a null cell
stays null (never the empty string, and nothing is trimmed), the
derivation is total, preserves the roster row count and leaves every other
column of a row unchanged. -/
theorem shadow_normalization_total (df : DataFrame) :
    (addShadowDF df).rows.length = df.rows.length
    ∧ lowerCell none = none ∧ upperCell none = none
    ∧ ∀ r ∈ df.rows,
        getCell (addShadowRow r) "email_lower" = lowerCell (getCell r "email")
        ∧ getCell (addShadowRow r) "active_upper" = upperCell (getCell r "active")
        ∧ ∀ c, c ≠ "email_lower" → c ≠ "active_upper" →
            getCell (addShadowRow r) c = getCell r c := by
  refine ⟨?_, rfl, rfl,
    fun r _ => ⟨rfl, rfl, fun c h1 h2 => getCell_addShadow_other r c h1 h2⟩⟩
  show (df.rows.map addShadowRow).length = df.rows.length
  exact List.length_map _ _

/-- Witness for C4 amended: on the Alice roster the shadowed table keeps
its row count, email_lower holds the lowercased email and first_name is
untouched. -/
theorem shadow_normalization_total_witness :
    (addShadowDF wRoster).rows.length = wRoster.rows.length
    ∧ getCell (addShadowRow wRosterRow) "email_lower" = lowerCell (getCell wRosterRow "email")
    ∧ getCell (addShadowRow wRosterRow) "first_name" = getCell wRosterRow "first_name" := by
  have h := shadow_normalization_total wRoster
  exact ⟨h.1, (h.2.2.2 wRosterRow (by decide)).1,
    (h.2.2.2 wRosterRow (by decide)).2.2 "first_name" (by decide) (by decide)⟩

end UserStatus
